import Mathlib

/-!
Shallow embedding of the RedFox-Tool credential-sweep engine
(src/RedFoxTool/src/{http_client,scanner,bruteforcer}.rs).

Network I/O is abstracted into oracles: a per-attempt transport oracle
`Nat → Except String Response` for the retry loops, and a per-pair login
oracle `String → String → Except String Response` for the sweep strategies
(the outcome of `HttpClient::test_login` for a credential pair).  Concurrent
interleavings are modelled by the canonical producer order: the per-pair
construction of every `ScanResult` is taken verbatim from the source, and all
claims settled here (cardinality, per-entry field contents, membership) are
invariant under permutation of the aggregation buffer.
-/

namespace RedFox

/-- HTTP response as the classifier consumes it: numeric status code, the raw
`Location` header when present, and the body (`none` models an undecodable
body, i.e. `response.text()` failing). -/
structure Response where
  status : Nat
  location : Option String
  body : Option String
deriving Repr, DecidableEq

/-- Rust `StatusCode::is_success`: 2xx range. -/
def isStatusSuccess (s : Nat) : Bool := 200 ≤ s && s ≤ 299

/-- Rust `StatusCode::is_redirection`: 3xx range. -/
def isStatusRedirect (s : Nat) : Bool := 300 ≤ s && s ≤ 399

/-- Character-list analogue of Rust `str::starts_with` used to scan for
substring occurrences. -/
def leadsWith : List Char → List Char → Bool
  | [], _ => true
  | _ :: _, [] => false
  | p :: ps, c :: cs => p == c && leadsWith ps cs

/-- Rust `str::contains` (case-sensitive substring test). -/
def hasSub (pat : List Char) : List Char → Bool
  | [] => pat.isEmpty
  | c :: rest => leadsWith pat (c :: rest) || hasSub pat rest

/-- String-level wrapper for `hasSub`. -/
def hasSubS (pat s : String) : Bool := hasSub pat.data s.data

/-- Fuel-driven scanner behind `countOccs`; every step consumes at least one
character, so fuel equal to the string length is exact. (Structural recursion
on the fuel keeps the definition kernel-reducible.) -/
def countOccsGo (pat : List Char) : Nat → List Char → Nat
  | 0, _ => 0
  | _ + 1, [] => 0
  | fuel + 1, c :: rest =>
    if 0 < pat.length ∧ leadsWith pat (c :: rest) = true then
      1 + countOccsGo pat fuel ((c :: rest).drop pat.length)
    else
      countOccsGo pat fuel rest

/-- Rust `str::matches(pat).count()`: number of non-overlapping,
left-to-right occurrences of `pat`. -/
def countOccs (pat s : List Char) : Nat := countOccsGo pat s.length s

/-- The failure-indicator list of `HttpClient::is_success_response`. -/
def failure_indicators : List String :=
  ["invalid", "incorrect", "wrong", "failed", "error",
   "login failed", "access denied", "unauthorized"]

/-- The success-indicator list of `HttpClient::is_success_response`. -/
def success_indicators : List String :=
  ["welcome", "dashboard", "home", "logout", "profile",
   "success", "logged in", "redirecting"]

/-- Rust `body.to_lowercase()` on the character list (the indicator lists are
ASCII, so per-character lowering is faithful where it matters). -/
def lowerChars (s : String) : List Char := s.data.map Char.toLower

/-- Sum of occurrence counts of every indicator in the lowercased body,
mirroring the `.iter().map(...).sum()` in `is_success_response`. -/
def pointsOf (indicators : List String) (bodyLower : List Char) : Nat :=
  (indicators.map (fun ind => countOccs ind.data bodyLower)).sum

/-- The body-keyword branch of `is_success_response`: lowercase the body,
score both indicator lists, succeed iff success points strictly exceed
failure points; an undecodable body (`Err(_)`) is failure. -/
def bodyVerdict : Option String → Bool
  | none => false
  | some body =>
    let bl := lowerChars body
    decide (pointsOf failure_indicators bl < pointsOf success_indicators bl)

/-- `HttpClient::is_success_response` (http_client.rs lines 195-245): 2xx is
success; a 3xx with a `Location` header succeeds iff the location contains
none of "login", "error", "fail"; everything else (including a 3xx without a
`Location` header) falls through to the body-keyword scoring. -/
def is_success_response (r : Response) : Bool :=
  if isStatusSuccess r.status then true
  else if isStatusRedirect r.status then
    match r.location with
    | some loc =>
      !(hasSubS "login" loc) && !(hasSubS "error" loc) && !(hasSubS "fail" loc)
    | none => bodyVerdict r.body
  else bodyVerdict r.body

/-- `ScanResult` (scanner.rs lines 18-39), without the wall-clock fields
`response_time` and `timestamp`, which no claim inspects beyond existence. -/
structure ScanResult where
  username : String
  password : String
  success : Bool
  status_code : Nat
  error : Option String
deriving Repr, DecidableEq

/-- Outcome oracle for one credential pair: what `HttpClient::test_login`
returns for that pair during the sweep (a response, or the transport error
string after retries exhausted). -/
def Login : Type := String → String → Except String Response

/-- The `ScanResult` constructed by `scan_fast` / `scan_normal` /
`scan_stealth` from one `test_login` outcome: on a response, `success` is
`response.status().is_success()` and `status_code` is the status; on a
transport error, `success = false`, `status_code = 0`, and `error` carries
the error string. -/
def mkScanResult (u p : String) (outcome : Except String Response) : ScanResult :=
  match outcome with
  | .ok resp => ⟨u, p, isStatusSuccess resp.status, resp.status, none⟩
  | .error e => ⟨u, p, false, 0, some e⟩

/-- Rust `slice::chunks (n+1)`: successive chunks of size `n+1`, the last one
possibly shorter. (Indexed by `n+1` so the chunk size is positive by
construction; `scan_fast` always calls it with a positive size.) -/
def chunksOf (n : Nat) : List α → List (List α)
  | [] => []
  | c :: rest => (c :: rest).take (n + 1) :: chunksOf n ((c :: rest).drop (n + 1))
termination_by l => l.length
decreasing_by
  simp only [List.length_drop, List.length_cons]
  omega

/-- `RedFoxScanner::scan_fast` (scanner.rs lines 185-265): partition the
username list into chunks of size `max(users.len() / max_workers, 1)`; each
chunk worker iterates its usernames × all passwords and appends one
`ScanResult` per pair; the chunk-local buffers are merged at join time (the
merge order of concurrent workers is modelled canonically as chunk order). -/
def scan_fast (users passwords : List String) (login : Login) (max_workers : Nat) :
    List ScanResult :=
  let chunk_size := max (users.length / max_workers) 1
  (chunksOf (chunk_size - 1) users).flatMap (fun chunk =>
    chunk.flatMap (fun u => passwords.map (fun p => mkScanResult u p (login u p))))

/-- `RedFoxScanner::scan_normal` (scanner.rs lines 268-356): one task per
credential pair, results collected from the channel until all producers are
done; the delivery interleaving is modelled canonically as producer order.
Each pair contributes exactly one channel message, hence one `ScanResult`. -/
def scan_normal (users passwords : List String) (login : Login) : List ScanResult :=
  users.flatMap (fun u => passwords.map (fun p => mkScanResult u p (login u p)))

/-- `RedFoxScanner::scan_stealth` (scanner.rs lines 359-415): a single
sequential worker over usernames × passwords, one `ScanResult` per pair
(the fixed 100ms inter-attempt sleep carries no data and is elided). -/
def scan_stealth (users passwords : List String) (login : Login) : List ScanResult :=
  users.flatMap (fun u => passwords.map (fun p => mkScanResult u p (login u p)))

/-! ### `HttpClient::test_login` retry loop -/

/-- Observable trace of one `test_login` call: how many times
`send_login_request` ran, which backoff sleeps (in ms) occurred, and the
final outcome. -/
structure LoginTrace where
  tries : Nat
  sleeps : List Nat
  outcome : Except String Response
deriving Repr

/-- The error message `test_login` builds on retry exhaustion:
`format!("فشل بعد {} محاولات: {}", max_retries, last_error)`. -/
def exhaustedMsg (maxRetries : Nat) (lastError : String) : String :=
  "فشل بعد " ++ toString maxRetries ++ " محاولات: " ++ lastError

/-- Loop body of `test_login` (http_client.rs lines 107-145).  `transport n`
is the outcome of the `(n+1)`-th call to `send_login_request`; `retries`
counts failures so far (so it is also the index of the current try); `fuel`
is `maxRetries + 1 - retries`, the number of loop iterations that
`while retries <= max_retries` still admits. -/
def tlGo (transport : Nat → Except String Response) (maxRetries : Nat) :
    Nat → Nat → List Nat → LoginTrace
  | 0, retries, sleeps => ⟨retries, sleeps, .error (exhaustedMsg maxRetries "")⟩
  | fuel + 1, retries, sleeps =>
    match transport retries with
    | .ok r => ⟨retries + 1, sleeps, .ok r⟩
    | .error e =>
      if retries + 1 > maxRetries then
        ⟨retries + 1, sleeps, .error (exhaustedMsg maxRetries e)⟩
      else
        tlGo transport maxRetries fuel (retries + 1) (sleeps ++ [200 * (retries + 1)])

/-- `HttpClient::test_login` with its hard-coded `max_retries = 3`
(http_client.rs lines 96, 107-145). -/
def test_login (transport : Nat → Except String Response) : LoginTrace :=
  tlGo transport 3 4 0 []

/-! ### Bruteforcer (bruteforcer.rs) -/

/-- `AttackMode` (bruteforcer.rs lines 17-26). -/
inductive AttackMode where
  | Fast
  | Normal
  | Stealth
  | Aggressive
deriving Repr, DecidableEq

/-- Rust `str::to_lowercase` as the mode selector uses it (per-character
lowering; the compared mode names are ASCII). -/
def strLower (s : String) : String := ⟨s.data.map Char.toLower⟩

/-- The strategy-selector `match` of `RedFoxScanner::new` (scanner.rs lines
90-95): lowercase the mode string; "fast" / "stealth" / "aggressive" pick
their modes, anything else silently falls to `Normal`. -/
def attack_mode_of (mode : String) : AttackMode :=
  let m := strLower mode
  if m = "fast" then .Fast
  else if m = "stealth" then .Stealth
  else if m = "aggressive" then .Aggressive
  else .Normal

/-- The `ScanResult` built by `Bruteforcer::attack_normal` (bruteforcer.rs
lines 126-145): like the scanner's, except a transport error is recorded with
the fixed string "فشل" rather than the error text. -/
def mkScanResultBF (u p : String) (outcome : Except String Response) : ScanResult :=
  match outcome with
  | .ok resp => ⟨u, p, isStatusSuccess resp.status, resp.status, none⟩
  | .error _ => ⟨u, p, false, 0, some "فشل"⟩

/-- `Bruteforcer::attack_normal` (bruteforcer.rs lines 102-152): one task per
credential pair, one channel message per task, results collected until the
channel closes (delivery order modelled canonically as producer order). -/
def attack_normal (users passwords : List String) (login : Login) : List ScanResult :=
  users.flatMap (fun u => passwords.map (fun p => mkScanResultBF u p (login u p)))

/-- The common-username allow-list of `Bruteforcer::smart_attack`
(bruteforcer.rs line 293). -/
def common_users : List String := ["admin", "administrator", "root", "user", "test"]

/-- The common-password allow-list of `Bruteforcer::smart_attack`
(bruteforcer.rs line 294). -/
def common_passwords : List String :=
  ["admin", "123456", "password", "12345678", "123456789"]

/-- The precheck pass of `Bruteforcer::smart_attack` (bruteforcer.rs lines
296-319): for each common username present in the provided username list and
each common password present in the provided password list, run `test_login`;
keep a `ScanResult` only when a response arrived and its status is 2xx
(transport errors and non-2xx responses are dropped). -/
def precheck (users passwords : List String) (login : Login) : List ScanResult :=
  common_users.flatMap (fun u =>
    if users.contains u then
      common_passwords.flatMap (fun p =>
        if passwords.contains p then
          match login u p with
          | .ok resp =>
            if isStatusSuccess resp.status then
              [⟨u, p, true, resp.status, none⟩]
            else []
          | .error _ => []
        else [])
    else [])

/-- `Bruteforcer::smart_attack` (bruteforcer.rs lines 281-326): the precheck
pass, then the full Normal-strategy sweep over the entire original
username × password space appended after it. -/
def smart_attack (users passwords : List String) (login : Login) : List ScanResult :=
  precheck users passwords login ++ attack_normal users passwords login

/-! ### Aggressive strategy (bruteforcer.rs lines 195-241, and the
equivalent non-rayon branch of scanner.rs lines 491-543) -/

/-- The `if let Some(e) = last_error` push that runs after the per-pair
attempt loop of `attack_aggressive` exits. -/
def aggAfterLoop (u p : String) : Option String → List ScanResult
  | none => []
  | some e => [⟨u, p, false, 0, some e⟩]

/-- Per-pair attempt loop of `Bruteforcer::attack_aggressive` (bruteforcer.rs
lines 201-236): `for attempt in 0..retries` with `retries = 3`; a response
pushes a `ScanResult` and breaks; an error stores `last_error` and continues;
after the loop, a stored `last_error` pushes a failure `ScanResult`.
`transport n` is the outcome of the `(n+1)`-th `test_login` call for the
pair; `fuel` is the number of loop iterations left. -/
def aggGo (transport : Nat → Except String Response) (u p : String) :
    Nat → Nat → Option String → List ScanResult
  | 0, _, lastErr => aggAfterLoop u p lastErr
  | fuel + 1, attempt, lastErr =>
    match transport attempt with
    | .ok resp =>
      ⟨u, p, isStatusSuccess resp.status, resp.status, none⟩ :: aggAfterLoop u p lastErr
    | .error e => aggGo transport u p fuel (attempt + 1) (some e)

/-- Results `attack_aggressive` pushes for one credential pair. -/
def aggPair (transport : Nat → Except String Response) (u p : String) : List ScanResult :=
  aggGo transport u p 3 0 none

/-- `Bruteforcer::attack_aggressive` (bruteforcer.rs lines 195-241) over the
whole credential space; `transports u p` is the per-attempt outcome oracle
for the pair `(u, p)`. -/
def attack_aggressive (users passwords : List String)
    (transports : String → String → Nat → Except String Response) : List ScanResult :=
  users.flatMap (fun u => passwords.flatMap (fun p => aggPair (transports u p) u p))

/-! ### Helper lemmas -/

/-- Flattening the chunks returns the original list. -/
theorem chunksOf_flatten (n : Nat) (l : List α) : (chunksOf n l).flatten = l := by
  have H : ∀ (m : Nat) (l : List α), l.length ≤ m → (chunksOf n l).flatten = l := by
    intro m
    induction m with
    | zero =>
      intro l hl
      cases l with
      | nil => simp [chunksOf]
      | cons c rest => simp at hl
    | succ m ih =>
      intro l hl
      cases l with
      | nil => simp [chunksOf]
      | cons c rest =>
        rw [chunksOf]
        simp only [List.flatten_cons]
        rw [ih (((c :: rest).drop (n + 1)))
          (by simp only [List.length_drop, List.length_cons] at hl ⊢; omega)]
        exact List.take_append_drop _ _
  exact H l.length l le_rfl

/-- A nested flatMap over chunks equals the flatMap over the flattened list. -/
theorem flatMap_over_chunks (cs : List (List α)) (g : α → List β) :
    cs.flatMap (fun c => c.flatMap g) = cs.flatten.flatMap g := by
  induction cs with
  | nil => simp
  | cons c rest ih => simp [List.flatten_cons, List.flatMap_append, ih]

/-- One result per credential pair: the length of a per-pair sweep is the
product of the list lengths. -/
theorem pairs_length (users passwords : List String) (f : String → String → ScanResult) :
    (users.flatMap (fun u => passwords.map (f u))).length
      = users.length * passwords.length := by
  induction users with
  | nil => simp
  | cons u rest ih => simp [ih, Nat.succ_mul, Nat.add_comm]

/-- Both `username` and `password` of a built scan result are the pair that
was attempted, whichever way the attempt ended. -/
theorem mkScanResult_pair (u p : String) (o : Except String Response) :
    (mkScanResult u p o).username = u ∧ (mkScanResult u p o).password = p := by
  cases o <;> simp [mkScanResult]

/-- Membership characterization of the per-pair sweeps. -/
theorem mem_pairs {res : ScanResult} {users passwords : List String}
    {f : String → String → ScanResult} :
    res ∈ users.flatMap (fun u => passwords.map (f u)) ↔
      ∃ u ∈ users, ∃ p ∈ passwords, res = f u p := by
  simp only [List.mem_flatMap, List.mem_map]
  constructor
  · rintro ⟨u, hu, p, hp, heq⟩
    exact ⟨u, hu, p, hp, heq.symm⟩
  · rintro ⟨u, hu, p, hp, heq⟩
    exact ⟨u, hu, p, hp, heq.symm⟩

/-! ### Claim theorems -/

/-- C1: every sweep under the Fast, Normal, or Stealth strategy yields
exactly one `ScanResult` per credential pair, so the result collection's
length equals `users.length * passwords.length`. -/
theorem sweep_cardinality (users passwords : List String) (login : Login)
    (max_workers : Nat) :
    (scan_fast users passwords login max_workers).length
      = users.length * passwords.length
    ∧ (scan_normal users passwords login).length = users.length * passwords.length
    ∧ (scan_stealth users passwords login).length = users.length * passwords.length := by
  refine ⟨?_, pairs_length users passwords _, pairs_length users passwords _⟩
  unfold scan_fast
  rw [flatMap_over_chunks, chunksOf_flatten]
  exact pairs_length users passwords _

/-- C2: when the transport fails on every try, `test_login` performs exactly
4 tries (1 initial + 3 retries), sleeps 200ms × n before the n-th retry, and
returns an error carrying the last observed transport error; when try `k`
(the first to respond, `k ≤ 3`) obtains a response, that response is returned
immediately after `k + 1` tries. -/
theorem test_login_retry_policy (transport : Nat → Except String Response)
    (e : Nat → String) :
    ((∀ n, transport n = .error (e n)) →
      test_login transport = ⟨4, [200, 400, 600], .error (exhaustedMsg 3 (e 3))⟩)
    ∧ (∀ k r, transport k = .ok r → (∀ j, j < k → transport j = .error (e j)) →
        k ≤ 3 →
        (test_login transport).outcome = .ok r
        ∧ (test_login transport).tries = k + 1) := by
  constructor
  · intro hf
    simp [test_login, tlGo, hf 0, hf 1, hf 2, hf 3]
  · intro k r hk hprev hk3
    interval_cases k
    · simp [test_login, tlGo, hk]
    · simp [test_login, tlGo, hprev 0 (by omega), hk]
    · simp [test_login, tlGo, hprev 0 (by omega), hprev 1 (by omega), hk]
    · simp [test_login, tlGo, hprev 0 (by omega), hprev 1 (by omega),
        hprev 2 (by omega), hk]

/-- Witness for C2: a transport that always fails with "boom" is tried 4
times, sleeps 200/400/600ms, and surfaces "boom"; a transport that responds
on its second try ends with that response after 2 tries. -/
theorem test_login_retry_policy_witness :
    test_login (fun _ => Except.error "boom")
      = ⟨4, [200, 400, 600], Except.error (exhaustedMsg 3 "boom")⟩
    ∧ (test_login (fun n =>
        if n = 1 then Except.ok ⟨200, none, none⟩ else Except.error "boom")).outcome
      = Except.ok ⟨200, none, none⟩
    ∧ (test_login (fun n =>
        if n = 1 then Except.ok ⟨200, none, none⟩ else Except.error "boom")).tries
      = 2 := by
  refine ⟨?_, ?_, ?_⟩
  · exact (test_login_retry_policy (fun _ => Except.error "boom")
      (fun _ => "boom")).1 (fun _ => rfl)
  · exact ((test_login_retry_policy (fun n =>
      if n = 1 then Except.ok ⟨200, none, none⟩ else Except.error "boom")
      (fun _ => "boom")).2 1 ⟨200, none, none⟩ rfl
      (fun j hj => by interval_cases j; rfl) (by omega)).1
  · exact ((test_login_retry_policy (fun n =>
      if n = 1 then Except.ok ⟨200, none, none⟩ else Except.error "boom")
      (fun _ => "boom")).2 1 ⟨200, none, none⟩ rfl
      (fun j hj => by interval_cases j; rfl) (by omega)).2

/-- C3 counterexample: a 302 response whose `Location` is "/dashboard" is
classified as success by `is_success_response`, yet the sweep records
`success = false` for it — the sweeps use only the bare 2xx status test, not
the three-rule classifier. -/
theorem sweep_verdict_counterexample :
    is_success_response ⟨302, some "/dashboard", some ""⟩ = true
    ∧ scan_stealth ["admin"] ["123456"]
        (fun _ _ => Except.ok ⟨302, some "/dashboard", some ""⟩)
      = [⟨"admin", "123456", false, 302, none⟩] := by
  constructor
  · rfl
  · rfl

/-- C3 amended: for every attempt in any of the Fast, Normal, or Stealth
sweeps that obtains a response, the recorded `success` equals
`response.status().is_success()` (the bare 2xx check) and `status_code` is
the response status; the full three-rule classifier is not consulted by any
sweep path. -/
theorem sweep_verdict_is_status_check (users passwords : List String)
    (login : Login) (max_workers : Nat) (res : ScanResult)
    (h : res ∈ scan_fast users passwords login max_workers
      ∨ res ∈ scan_normal users passwords login
      ∨ res ∈ scan_stealth users passwords login)
    (r : Response) (hr : login res.username res.password = .ok r) :
    res.success = isStatusSuccess r.status ∧ res.status_code = r.status := by
  have key : res ∈ users.flatMap
      (fun u => passwords.map (fun p => mkScanResult u p (login u p))) →
      res.success = isStatusSuccess r.status ∧ res.status_code = r.status := by
    intro h2
    rcases mem_pairs.mp h2 with ⟨u, hu, p, hp, heq⟩
    have hup := mkScanResult_pair u p (login u p)
    rw [heq] at hr ⊢
    rw [hup.1, hup.2] at hr
    rw [hr]
    simp [mkScanResult]
  rcases h with h | h | h
  · apply key
    unfold scan_fast at h
    rw [flatMap_over_chunks, chunksOf_flatten] at h
    exact h
  · exact key h
  · exact key h

/-- Witness for C3's amended theorem: with a constant 500 response, the
single fast-sweep entry records `success = false` (the 2xx check) and
`status_code = 500`. -/
theorem sweep_verdict_is_status_check_witness :
    (⟨"admin", "123456", false, 500, none⟩ : ScanResult).success
      = isStatusSuccess 500
    ∧ (⟨"admin", "123456", false, 500, none⟩ : ScanResult).status_code = 500 :=
  sweep_verdict_is_status_check ["admin"] ["123456"]
    (fun _ _ => Except.ok ⟨500, none, none⟩) 4
    ⟨"admin", "123456", false, 500, none⟩
    (Or.inl (by simp [scan_fast, chunksOf, mkScanResult, isStatusSuccess]))
    ⟨500, none, none⟩ rfl

/-- C4: any response with a 2xx status classifies as success, whatever the
body contains. -/
theorem classify_2xx_success (r : Response) (h1 : 200 ≤ r.status)
    (h2 : r.status ≤ 299) : is_success_response r = true := by
  simp [is_success_response, isStatusSuccess, h1, h2]

/-- Witness for C4: status 200 with body "access denied" still classifies as
success. -/
theorem classify_2xx_success_witness :
    is_success_response ⟨200, none, some "access denied"⟩ = true :=
  classify_2xx_success ⟨200, none, some "access denied"⟩ (by decide) (by decide)

/-- C5: a 3xx response with a `Location` header classifies as success iff the
raw location value contains none of the case-sensitive substrings "login",
"error", "fail"; a 3xx response without a `Location` header falls through to
the body-keyword rule. -/
theorem classify_redirect_rule (r : Response) (h1 : 300 ≤ r.status)
    (h2 : r.status ≤ 399) :
    (∀ loc, r.location = some loc →
      (is_success_response r = true ↔
        hasSubS "login" loc = false ∧ hasSubS "error" loc = false
          ∧ hasSubS "fail" loc = false))
    ∧ (r.location = none → is_success_response r = bodyVerdict r.body) := by
  have hns : isStatusSuccess r.status = false := by
    simp only [isStatusSuccess, Bool.and_eq_false_imp, decide_eq_true_eq,
      decide_eq_false_iff_not]
    omega
  have hrd : isStatusRedirect r.status = true := by
    simp only [isStatusRedirect, Bool.and_eq_true, decide_eq_true_eq]
    omega
  constructor
  · intro loc hloc
    simp [is_success_response, hns, hrd, hloc, and_assoc]
  · intro hloc
    simp [is_success_response, hns, hrd, hloc]

/-- Witness for C5: status 302 with `Location: /dashboard` classifies as
success; status 302 with `Location: /login?error=1` classifies as failure. -/
theorem classify_redirect_rule_witness :
    is_success_response ⟨302, some "/dashboard", some ""⟩ = true
    ∧ is_success_response ⟨302, some "/login?error=1", some ""⟩ = false := by
  constructor
  · exact ((classify_redirect_rule ⟨302, some "/dashboard", some ""⟩
      (by decide) (by decide)).1 "/dashboard" rfl).mpr (by decide)
  · have h := ((classify_redirect_rule ⟨302, some "/login?error=1", some ""⟩
      (by decide) (by decide)).1 "/login?error=1" rfl)
    by_contra hc
    simp only [Bool.not_eq_false] at hc
    exact absurd (h.mp hc).1 (by decide)

/-- C6: a response that is neither 2xx nor redirect-decided is scored on its
lowercased body: success iff the summed success-indicator occurrences
strictly exceed the summed failure-indicator occurrences; an undecodable body
classifies as failure. -/
theorem classify_body_scoring (r : Response)
    (h1 : isStatusSuccess r.status = false)
    (h2 : isStatusRedirect r.status = false ∨ r.location = none) :
    is_success_response r = bodyVerdict r.body
    ∧ (∀ b, r.body = some b →
        (is_success_response r = true ↔
          pointsOf failure_indicators (lowerChars b)
            < pointsOf success_indicators (lowerChars b)))
    ∧ (r.body = none → is_success_response r = false) := by
  have hbody : is_success_response r = bodyVerdict r.body := by
    rcases h2 with h2 | h2
    · simp [is_success_response, h1, h2]
    · simp only [is_success_response, h1, Bool.false_eq_true, if_false, h2]
      cases hrd : isStatusRedirect r.status <;> simp
  refine ⟨hbody, ?_, ?_⟩
  · intro b hb
    rw [hbody, hb]
    simp [bodyVerdict]
  · intro hb
    rw [hbody, hb]
    rfl

/-- Witness for C6: status 401 with body "Welcome welcome dashboard invalid"
scores 3 success points against 1 failure point and classifies as success;
status 401 with an undecodable body classifies as failure. -/
theorem classify_body_scoring_witness :
    is_success_response ⟨401, none, some "Welcome welcome dashboard invalid"⟩ = true
    ∧ is_success_response ⟨401, none, none⟩ = false := by
  constructor
  · exact ((classify_body_scoring ⟨401, none, some "Welcome welcome dashboard invalid"⟩
      (by decide) (.inl (by decide))).2.1 "Welcome welcome dashboard invalid" rfl).mpr
      (by decide)
  · exact (classify_body_scoring ⟨401, none, none⟩
      (by decide) (.inl (by decide))).2.2 rfl

/-- C7 (code defect): in `attack_aggressive`, `last_error` is not cleared
when a later attempt of the same pair succeeds, so a pair whose first attempt
fails and whose second attempt responds yields TWO ScanResults — the success
and a spurious failure — instead of exactly one. -/
theorem aggressive_duplicate_result :
    attack_aggressive ["admin"] ["123456"]
        (fun _ _ n =>
          if n = 0 then Except.error "connection refused"
          else Except.ok ⟨200, none, some ""⟩)
      = [⟨"admin", "123456", true, 200, none⟩,
         ⟨"admin", "123456", false, 0, some "connection refused"⟩] := by
  rfl

/-- C8: a credential pair whose transport fails (after `test_login`'s
retries) never aborts the sweep: the stealth and fast sweeps both record a
`ScanResult` for that pair with `success = false`, `status_code = 0`, and the
error string, and the sweep still covers every pair. -/
theorem transport_failure_recorded (users passwords : List String)
    (login : Login) (max_workers : Nat) (u p e : String)
    (hu : u ∈ users) (hp : p ∈ passwords) (he : login u p = .error e) :
    (⟨u, p, false, 0, some e⟩ : ScanResult) ∈ scan_stealth users passwords login
    ∧ (⟨u, p, false, 0, some e⟩ : ScanResult)
      ∈ scan_fast users passwords login max_workers
    ∧ (scan_stealth users passwords login).length
      = users.length * passwords.length := by
  have hres : mkScanResult u p (login u p) = ⟨u, p, false, 0, some e⟩ := by
    rw [he]
    rfl
  refine ⟨?_, ?_, pairs_length users passwords _⟩
  · unfold scan_stealth
    exact mem_pairs.mpr ⟨u, hu, p, hp, hres.symm⟩
  · unfold scan_fast
    rw [flatMap_over_chunks, chunksOf_flatten]
    exact mem_pairs.mpr ⟨u, hu, p, hp, hres.symm⟩

/-- Witness for C8: a one-pair sweep whose transport is refused records the
failed entry and still has full cardinality. -/
theorem transport_failure_recorded_witness :
    (⟨"a", "b", false, 0, some "refused"⟩ : ScanResult)
      ∈ scan_stealth ["a"] ["b"] (fun _ _ => Except.error "refused")
    ∧ (⟨"a", "b", false, 0, some "refused"⟩ : ScanResult)
      ∈ scan_fast ["a"] ["b"] (fun _ _ => Except.error "refused") 4
    ∧ (scan_stealth ["a"] ["b"] (fun _ _ => Except.error "refused")).length
      = 1 * 1 :=
  transport_failure_recorded ["a"] ["b"] (fun _ _ => Except.error "refused")
    4 "a" "b" "refused" (by decide) (by decide) rfl

/-- C9: the smart-attack precheck only ever produces results for pairs drawn
from the fixed common allow-lists intersected with the provided username and
password lists, keeps only success verdicts, and the full Normal sweep that
follows still covers the entire original credential space. -/
theorem smart_attack_spec (users passwords : List String) (login : Login) :
    (∀ res ∈ precheck users passwords login,
      res.username ∈ common_users ∧ res.username ∈ users
      ∧ res.password ∈ common_passwords ∧ res.password ∈ passwords
      ∧ res.success = true)
    ∧ smart_attack users passwords login
      = precheck users passwords login ++ attack_normal users passwords login
    ∧ (attack_normal users passwords login).length
      = users.length * passwords.length := by
  refine ⟨?_, rfl, pairs_length users passwords _⟩
  intro res hres
  unfold precheck at hres
  rcases List.mem_flatMap.mp hres with ⟨u, hu, hres2⟩
  split at hres2
  case isFalse => simp at hres2
  case isTrue hcu =>
  rcases List.mem_flatMap.mp hres2 with ⟨p, hp, hres3⟩
  split at hres3
  case isFalse => simp at hres3
  case isTrue hcp =>
  split at hres3
  case h_2 => simp at hres3
  case h_1 resp _ =>
  split at hres3
  case isFalse => simp at hres3
  case isTrue =>
  rcases List.mem_singleton.mp hres3 with rfl
  exact ⟨hu, List.elem_iff.mp hcu, hp, List.elem_iff.mp hcp, rfl⟩

/-- Witness for C9: with admin/123456 provided and a target that always
answers 200, the precheck keeps the admin/123456 success, and the appended
Normal sweep covers both provided pairs. -/
theorem smart_attack_spec_witness :
    ((⟨"admin", "123456", true, 200, none⟩ : ScanResult).username ∈ common_users
      ∧ (⟨"admin", "123456", true, 200, none⟩ : ScanResult).username
        ∈ (["admin", "alice"] : List String)
      ∧ (⟨"admin", "123456", true, 200, none⟩ : ScanResult).password
        ∈ common_passwords
      ∧ (⟨"admin", "123456", true, 200, none⟩ : ScanResult).password
        ∈ (["123456"] : List String)
      ∧ (⟨"admin", "123456", true, 200, none⟩ : ScanResult).success = true)
    ∧ smart_attack ["admin", "alice"] ["123456"]
        (fun _ _ => Except.ok ⟨200, none, none⟩)
      = precheck ["admin", "alice"] ["123456"]
          (fun _ _ => Except.ok ⟨200, none, none⟩)
        ++ attack_normal ["admin", "alice"] ["123456"]
          (fun _ _ => Except.ok ⟨200, none, none⟩)
    ∧ (attack_normal ["admin", "alice"] ["123456"]
        (fun _ _ => Except.ok ⟨200, none, none⟩)).length = 2 * 1 := by
  have h := smart_attack_spec ["admin", "alice"] ["123456"]
    (fun _ _ => Except.ok ⟨200, none, none⟩)
  exact ⟨h.1 ⟨"admin", "123456", true, 200, none⟩ (by decide), h.2.1, h.2.2⟩

/-- C10: a mode string whose lowercase form is none of "fast", "stealth",
"aggressive" silently selects the Normal strategy; scanner construction never
fails on account of the strategy selector. -/
theorem unknown_mode_defaults_normal (mode : String)
    (h1 : strLower mode ≠ "fast") (h2 : strLower mode ≠ "stealth")
    (h3 : strLower mode ≠ "aggressive") :
    attack_mode_of mode = AttackMode.Normal := by
  simp [attack_mode_of, h1, h2, h3]

/-- Witness for C10: the unrecognized mode "typo" and the empty mode both
select the Normal strategy. -/
theorem unknown_mode_defaults_normal_witness :
    attack_mode_of "typo" = AttackMode.Normal
    ∧ attack_mode_of "" = AttackMode.Normal :=
  ⟨unknown_mode_defaults_normal "typo" (by decide) (by decide) (by decide),
   unknown_mode_defaults_normal "" (by decide) (by decide) (by decide)⟩

end RedFox
